import Mathlib

/-!
Verification of the invoice-parser repository's comparison, processing and
utility logic, shallowly embedded from the Python sources.

Conventions of the embedding:
* Python values that flow through the cleaning / comparison code are either
  numbers (`int`/`float`, both collapsed into `ℚ` — the comparison logic uses
  only `+ - * / abs` and order, which the rationals model exactly), strings,
  or `None`; they are represented by `PyVal`.
* Python's builtin `float(s)` / `int(s)` parsers are modelled by `pyFloat?` /
  `pyInt?` on their decimal forms (optional surrounding whitespace, optional
  sign, digits with an optional fractional part); a raised `ValueError` /
  `TypeError` is `none`.
* `dict.get(k, d)` is association-list lookup with a default.
* Loops that append to a Python list are folds / `filterMap`s over the same
  data, in the same order as the source.
-/

/-- The characters stripped by Python's `str.strip()`. -/
def esEspacio (c : Char) : Bool :=
  c = ' ' ∨ c = '\t' ∨ c = '\n' ∨ c = '\r' ∨ c = '\x0b' ∨ c = '\x0c'

/-- Python `s.strip()`: drop whitespace from both ends. -/
def pyStrip (s : String) : String :=
  ⟨((s.data.dropWhile esEspacio).reverse.dropWhile esEspacio).reverse⟩

/-- Python `s.replace(c, '')` for a single-character pattern. -/
def quitarChar (c : Char) (s : String) : String :=
  ⟨s.data.filter (fun x => x ≠ c)⟩

/-- Python `s.replace(',', '')`. -/
def quitarComas (s : String) : String := quitarChar ',' s

/-- Python `s.replace('\"', '')`. -/
def quitarComillas (s : String) : String := quitarChar '"' s

/-- Digit run to a natural number (most significant first). -/
def natDe (cs : List Char) : ℕ :=
  cs.foldl (fun n c => n * 10 + (c.toNat - 48)) 0

/-- Python `int(s)` on decimal strings: optional whitespace, optional sign,
then a non-empty digit run.  `none` models a raised `ValueError`. -/
def pyInt? (s : String) : Option ℤ :=
  let cs := (pyStrip s).data
  match cs with
  | [] => none
  | '-' :: rest => if rest ≠ [] ∧ rest.all Char.isDigit then some (-(natDe rest : ℤ)) else none
  | '+' :: rest => if rest ≠ [] ∧ rest.all Char.isDigit then some (natDe rest : ℤ) else none
  | _ => if cs.all Char.isDigit then some (natDe cs : ℤ) else none

/-- Unsigned decimal body of a Python float literal: `d+`, `d+.d*` or `.d+`. -/
def floatCuerpo? (cs : List Char) : Option ℚ :=
  let ent := cs.takeWhile Char.isDigit
  let rest := cs.dropWhile Char.isDigit
  match rest with
  | [] => if ent ≠ [] then some (natDe ent : ℚ) else none
  | '.' :: frac =>
    if frac.all Char.isDigit ∧ (ent ≠ [] ∨ frac ≠ []) then
      some ((natDe ent : ℚ) + (natDe frac : ℚ) / ((10 : ℚ) ^ frac.length))
    else none
  | _ => none

/-- Python `float(s)` on its decimal forms (exponents and `inf`/`nan`, which
never occur in this pipeline's data, are not modelled and would raise in the
same way as any unparseable string).  `none` models a raised error. -/
def pyFloat? (s : String) : Option ℚ :=
  let cs := (pyStrip s).data
  match cs with
  | '-' :: rest => (floatCuerpo? rest).map (fun q => -q)
  | '+' :: rest => floatCuerpo? rest
  | _ => floatCuerpo? cs

/-- A Python value flowing through the invoice pipeline. -/
inductive PyVal where
  | num : ℚ → PyVal
  | str : String → PyVal
  | pynone : PyVal
deriving DecidableEq, Repr

/-- Python truthiness of a `PyVal` (`bool(v)`). -/
def pyTruthy (v : PyVal) : Bool :=
  match v with
  | .num q => q ≠ 0
  | .str s => s ≠ ""
  | .pynone => false

/-- The coercion used throughout `db_connector_comparacion.py`:
`if not isinstance(v, (int, float)): try: v = float(v) except (ValueError, TypeError): v = 0`. -/
def coerceNum (v : PyVal) : ℚ :=
  match v with
  | .num q => q
  | .str s => (pyFloat? s).getD 0
  | .pynone => 0

example : pyInt? "  -123" = some (-123) := by decide
example : pyInt? "--5" = none := by decide
example : pyFloat? "abc" = none := by decide
example : pyFloat? "125" = some 125 := by decide

/-! ## Data model: invoices, components, database rows, comparison rows -/

/-- One energy component extracted from an invoice
(`extraer_tabla_componentes` output, after processing).  The five value
fields model `componente.get(campo, 0)` for the fixed keys used by the
comparison code. -/
structure Componente where
  concepto : String
  kwh_kvarh : PyVal
  precio_kwh : PyVal
  mes_corriente : PyVal
  mes_anteriores : PyVal
  total : PyVal
deriving DecidableEq, Repr

/-- `componente.get(campo, 0)` for the field names used by the comparison
loops; an unknown key yields the default `0`. -/
def campoDe (c : Componente) (campo : String) : PyVal :=
  match campo with
  | "kwh_kvarh" => c.kwh_kvarh
  | "precio_kwh" => c.precio_kwh
  | "mes_corriente" => c.mes_corriente
  | "mes_anteriores" => c.mes_anteriores
  | "total" => c.total
  | _ => .num 0

/-- A processed invoice as consumed by `compare_with_facturas`:
`id` models `factura.get('id', '')`, `datos_generales` is the general-data
dict, `componentes` the component list. -/
structure Factura where
  id : String
  datos_generales : List (String × PyVal)
  componentes : List Componente

/-- `factura['datos_generales'].get(k, d)`. -/
def dgGet (f : Factura) (k : String) (d : PyVal) : PyVal :=
  (List.lookup k f.datos_generales).getD d

/-- A row of the database query result (`db_data`): its `frt` column value
plus a column lookup (`none` models a column absent from
`factura_db.columns`). -/
structure DbRow where
  frt : PyVal
  cols : String → Option PyVal

/-- One comparison row appended to the `comparaciones` list. -/
structure CompRow where
  id_factura : String
  frontera : PyVal
  concepto : String
  valor_factura : PyVal
  valor_datalake : Option PyVal
  diferencia : Option ℚ
  estado : String
deriving DecidableEq, Repr

/-- Python `col.lower()`.  ASCII letters are lowered; the accented letters
appearing in the column mappings are already lowercase in the source, so
mapping them through the ASCII `Char.toLower` is the identity, as in Python. -/
def pyLower (s : String) : String := ⟨s.data.map Char.toLower⟩

/-- `factura_db[col.lower()].values[0] if col.lower() in factura_db.columns
else 0`, followed by the numeric coercion applied to the DB value. -/
def dbValor (r : DbRow) (col : String) : ℚ :=
  match r.cols (pyLower col) with
  | some v => coerceNum v
  | none => 0

/-! ## `db_connector_comparacion._get_variables_mapping` -/

/-- The invoice-field → database-column mapping returned by
`_get_variables_mapping` (dict in insertion order). -/
def _get_variables_mapping : List (String × String) :=
  [("periodo_facturacion", "período facturación"),
   ("factor_m", "factor_m"),
   ("codigo_sic", "frt"),
   ("subtotal_base_energia", "subtotal_energía_total"),
   ("contribucion", "contribución"),
   ("contribucion_otros_meses", "v_contribucion_otros_meses"),
   ("subtotal_energia_contribucion_pesos", "subtotal_energía_contribución_pesos"),
   ("otros_cobros", "otros_cobros"),
   ("sobretasa", "sobretasa"),
   ("ajustes_cargos_regulados", "ajustes_cargos_regulados"),
   ("compensaciones", "compensaciones"),
   ("saldo_cartera", "amortizacion"),
   ("interes_mora", "interés_por_mora"),
   ("recobros", "recobros"),
   ("alumbrado_publico", "alumbrado_publico_total"),
   ("impuesto_alumbrado_publico", "impuesto_alumbrado_público"),
   ("ajuste_iap_otros_meses", "ajuste_iap_otros_meses"),
   ("convivencia_ciudadana", "covivencia_ciudadana"),
   ("tasa_especial_convivencia", "tasa_especial_convivencia_ciudadana"),
   ("ajuste_tasa_convivencia", "ajuste_tasa_convivencia_otros_meses"),
   ("total_servicio_energia_impuestos", "total_servicio_energía_impuestos"),
   ("ajuste_decena", "ajuste_decena"),
   ("neto_pagar", "neto_a_pagar"),
   ("energia_reactiva_inductiva", "energía_reactiva_inductiva_facturada"),
   ("energia_reactiva_capacitiva", "energía_reactiva_capacitiva_facturada"),
   ("total_energia_reactiva", "total_energia_reactiva")]

/-- The three fields singled out by `_compare_general_variables` for the
absolute-tolerance rule. -/
def camposReactivos : List String :=
  ["energia_reactiva_inductiva", "energia_reactiva_capacitiva", "total_energia_reactiva"]

/-! ## `_compare_general_variables` -/

/-- The difference / state computation of `_compare_general_variables` for
one variable, given the two already-coerced numeric values. -/
def generalDiffState (var : String) (vf vdb : ℚ) : ℚ × String :=
  if var ∈ camposReactivos then
    let diferencia := |vf - vdb|
    (diferencia, if diferencia > 1/2 then "Alerta" else "OK")
  else
    if vdb = 0 then
      if vf = 0 then (0, "OK") else (100, "Alerta")
    else
      let diferencia := |vf - vdb| / |vdb| * 100
      (diferencia, if diferencia ≥ 1 then "Alerta" else "OK")

/-- One iteration of the `_compare_general_variables` loop: coerce the
invoice value and the database value, compute difference and state, build
the comparison row. -/
def compareGeneralRow (r : DbRow) (f : Factura) (codigo_sic : PyVal)
    (pr : String × String) : CompRow :=
  let valor_factura := coerceNum (dgGet f pr.1 (.num 0))
  let valor_db := dbValor r pr.2
  let ds := generalDiffState pr.1 valor_factura valor_db
  { id_factura := f.id, frontera := codigo_sic, concepto := pr.1,
    valor_factura := .num valor_factura, valor_datalake := some (.num valor_db),
    diferencia := some ds.1, estado := ds.2 }

/-- `_compare_general_variables`: the rows appended for one invoice. -/
def _compare_general_variables (r : DbRow) (f : Factura) (codigo_sic : PyVal) :
    List CompRow :=
  _get_variables_mapping.map (compareGeneralRow r f codigo_sic)

/-! ## `_get_components_mapping` and `_compare_energy_components` -/

/-- The database-column mapping for one energy component (`None` marks a
sub-field with no database column). -/
structure MapaComponente where
  total : String
  kwh_kvarh : Option String
  precio_kwh : Option String
  mes_corriente : Option String
  mes_anteriores : Option String
deriving DecidableEq, Repr

/-- `componentes_map[concepto].items()` in dict insertion order. -/
def itemsDe (m : MapaComponente) : List (String × Option String) :=
  [("total", some m.total), ("kwh_kvarh", m.kwh_kvarh),
   ("precio_kwh", m.precio_kwh), ("mes_corriente", m.mes_corriente),
   ("mes_anteriores", m.mes_anteriores)]

/-- Field selector on a `MapaComponente` by the Python dict key. -/
def campoMapa (m : MapaComponente) (campo : String) : Option String :=
  match campo with
  | "total" => some m.total
  | "kwh_kvarh" => m.kwh_kvarh
  | "precio_kwh" => m.precio_kwh
  | "mes_corriente" => m.mes_corriente
  | "mes_anteriores" => m.mes_anteriores
  | _ => none

/-- `_get_components_mapping`: the 8 fixed concepts and their database
columns (note the intentional cross-mapping of the reactive component's
unit price to `distribución_precio_kwh`). -/
def _get_components_mapping : List (String × MapaComponente) :=
  [("Generación",
    { total := "generación_total_pesos", kwh_kvarh := some "generación_kwh_kvarh",
      precio_kwh := some "generación_precio_kwh",
      mes_corriente := some "generación_mes_corriente_pesos",
      mes_anteriores := some "generación_mes_anteriores_pesos" }),
   ("Transmisión",
    { total := "transmisión_total_pesos", kwh_kvarh := none,
      precio_kwh := some "transmisión_precio_kwh",
      mes_corriente := some "transmisión_mes_corriente_pesos",
      mes_anteriores := some "transmisión_mes_anteriores_pesos" }),
   ("Distribución",
    { total := "distribución_total_pesos", kwh_kvarh := none,
      precio_kwh := some "distribución_precio_kwh",
      mes_corriente := some "distribución_mes_corriente_pesos",
      mes_anteriores := some "distribución_mes_anteriores_pesos" }),
   ("Pérdidas",
    { total := "pérdidas_total_pesos", kwh_kvarh := none,
      precio_kwh := some "pérdidas_precio_kwh",
      mes_corriente := some "pérdidas_mes_corriente_pesos",
      mes_anteriores := some "pérdidas_mes_anteriores_pesos" }),
   ("Comercialización",
    { total := "comercialización_total_pesos", kwh_kvarh := none,
      precio_kwh := some "comercialización_precio_kwh",
      mes_corriente := some "comercialización_mes_corriente_pesos",
      mes_anteriores := some "comercialización_mes_anteriores_pesos" }),
   ("Restricciones",
    { total := "restricciones_total_pesos", kwh_kvarh := none,
      precio_kwh := some "restricciones_precio_kwh",
      mes_corriente := some "restricciones_mes_corriente_pesos",
      mes_anteriores := some "restricciones_mes_anteriores_pesos" }),
   ("Otros cargos",
    { total := "otros_cargos_total_pesos", kwh_kvarh := none,
      precio_kwh := some "otros_cargos_precio_kwh",
      mes_corriente := some "otros_cargos_mes_corriente_pesos",
      mes_anteriores := some "otros_cargos_mes_anteriores_pesos" }),
   ("Energía inductiva + capacitiva",
    { total := "energía_inductiva_capacitiva_total_pesos",
      kwh_kvarh := some "energía_inductiva_capacitiva_kwh_kvarh",
      precio_kwh := some "distribución_precio_kwh",
      mes_corriente := some "energía_inductiva_capacitiva_mes_corriente_pesos",
      mes_anteriores := some "energía_inductiva_capacitiva_mes_anteriores_pesos" })]

/-- The difference / state computation of `_compare_energy_components`
(both for the component total and for every detailed sub-field):
signed difference, one-unit absolute tolerance. -/
def componentDiffState (vf vdb : ℚ) : ℚ × String :=
  (vf - vdb, if |vf - vdb| ≤ 1 then "OK" else "Alerta")

/-- The row `_compare_energy_components` appends for a component's total. -/
def filaComponenteTotal (r : DbRow) (f : Factura) (codigo_sic : PyVal)
    (comp : Componente) (m : MapaComponente) : CompRow :=
  let valor_factura := coerceNum comp.total
  let valor_db := dbValor r m.total
  let ds := componentDiffState valor_factura valor_db
  { id_factura := f.id, frontera := codigo_sic, concepto := comp.concepto,
    valor_factura := .num valor_factura, valor_datalake := some (.num valor_db),
    diferencia := some ds.1, estado := ds.2 }

/-- The row `_compare_energy_components` appends for one detailed sub-field
(with the `"N/A"` → `0` special case applied before coercion). -/
def filaSubcampo (r : DbRow) (f : Factura) (codigo_sic : PyVal)
    (comp : Componente) (campo : String) (col : String) : CompRow :=
  let v0 := campoDe comp campo
  let v1 := if v0 = .str "N/A" then .num 0 else v0
  let valor_factura := coerceNum v1
  let valor_db := dbValor r col
  let ds := componentDiffState valor_factura valor_db
  { id_factura := f.id, frontera := codigo_sic,
    concepto := comp.concepto ++ "_" ++ campo,
    valor_factura := .num valor_factura, valor_datalake := some (.num valor_db),
    diferencia := some ds.1, estado := ds.2 }

/-- The rows `_compare_energy_components` appends for one component: the
total row, then one row per detailed sub-field whose mapping is not `None`
(the `campo != 'total' and var_db_campo is not None` filter). -/
def filasDeComponente (r : DbRow) (f : Factura) (codigo_sic : PyVal)
    (comp : Componente) : List CompRow :=
  match List.lookup comp.concepto _get_components_mapping with
  | none => []
  | some m =>
    filaComponenteTotal r f codigo_sic comp m ::
      (itemsDe m).filterMap (fun it =>
        if it.1 ≠ "total" then
          it.2.map (filaSubcampo r f codigo_sic comp it.1)
        else none)

/-- `_compare_energy_components`: the rows appended for one invoice. -/
def _compare_energy_components (r : DbRow) (f : Factura) (codigo_sic : PyVal) :
    List CompRow :=
  List.flatten (f.componentes.map (filasDeComponente r f codigo_sic))

/-! ## Claims C1, C2, C3: the comparison tolerance rules -/

/-- Helper: a string is never equal to itself extended by a non-empty suffix. -/
theorem ne_append_no_vacio (a b : String) (hb : b.length ≠ 0) : a ≠ a ++ b := by
  intro h
  have hlen := congrArg String.length h
  rw [String.length_append] at hlen
  omega

/-- Helper: left cancellation of string append. -/
theorem append_cancel_izq {a b c : String} (h : a ++ b = a ++ c) : b = c := by
  have hd : (a ++ b).data = (a ++ c).data := congrArg String.data h
  rw [String.data_append, String.data_append] at hd
  exact String.ext (List.append_cancel_left hd)

/-- Claim C1: for every non-reactive-energy mapped general field, after
coercing both values to numbers (failure → 0): both zero gives difference 0
and "OK"; database zero with nonzero invoice value gives difference exactly
100 and "Alerta"; otherwise the difference is `|invoice − db| / |db| × 100`
with "Alerta" exactly when that percentage is ≥ 1 and "OK" otherwise. -/
theorem general_field_percentage_rule (r : DbRow) (f : Factura) (cs : PyVal)
    (var dbcol : String) (vf vdb : ℚ)
    (_hmem : (var, dbcol) ∈ _get_variables_mapping)
    (hnr : var ∉ camposReactivos)
    (hvf : vf = coerceNum (dgGet f var (.num 0)))
    (hvdb : vdb = dbValor r dbcol) :
    (vf = 0 → vdb = 0 →
      (compareGeneralRow r f cs (var, dbcol)).diferencia = some 0 ∧
      (compareGeneralRow r f cs (var, dbcol)).estado = "OK") ∧
    (vdb = 0 → vf ≠ 0 →
      (compareGeneralRow r f cs (var, dbcol)).diferencia = some 100 ∧
      (compareGeneralRow r f cs (var, dbcol)).estado = "Alerta") ∧
    (vdb ≠ 0 →
      (compareGeneralRow r f cs (var, dbcol)).diferencia
        = some (|vf - vdb| / |vdb| * 100) ∧
      ((compareGeneralRow r f cs (var, dbcol)).estado = "Alerta"
        ↔ 1 ≤ |vf - vdb| / |vdb| * 100) ∧
      ((compareGeneralRow r f cs (var, dbcol)).estado = "OK"
        ↔ |vf - vdb| / |vdb| * 100 < 1)) := by
  simp only [compareGeneralRow, generalDiffState, ← hvf, ← hvdb, if_neg hnr]
  refine ⟨?_, ?_, ?_⟩
  · intro h0 hdb0
    simp [h0, hdb0]
  · intro hdb0 hf
    simp [hdb0, hf]
  · intro hdb
    rw [if_neg hdb]
    refine ⟨rfl, ?_, ?_⟩ <;> split_ifs with hc <;>
      simp_all [ge_iff_le, not_le]

/-- Claim C2: for each of the three reactive-energy fields, the recorded
difference is `|invoice − db|` and the state is "Alerta" exactly when that
difference exceeds 0.5, "OK" otherwise. -/
theorem reactive_field_absolute_rule (r : DbRow) (f : Factura) (cs : PyVal)
    (var dbcol : String) (vf vdb : ℚ)
    (_hmem : (var, dbcol) ∈ _get_variables_mapping)
    (hr : var ∈ camposReactivos)
    (hvf : vf = coerceNum (dgGet f var (.num 0)))
    (hvdb : vdb = dbValor r dbcol) :
    (compareGeneralRow r f cs (var, dbcol)).diferencia = some |vf - vdb| ∧
    ((compareGeneralRow r f cs (var, dbcol)).estado = "Alerta" ↔ 1/2 < |vf - vdb|) ∧
    ((compareGeneralRow r f cs (var, dbcol)).estado = "OK" ↔ |vf - vdb| ≤ 1/2) := by
  simp only [compareGeneralRow, generalDiffState, ← hvf, ← hvdb, if_pos hr]
  refine ⟨trivial, ?_, ?_⟩ <;> split_ifs with hc <;>
    simp_all [gt_iff_lt, not_lt]

/-- The sub-field keys a component carries besides `total`. -/
def camposDetalle : List String :=
  ["kwh_kvarh", "precio_kwh", "mes_corriente", "mes_anteriores"]

/-- The rule claim C3 asserts of every component comparison row: the
recorded difference is the signed difference of the recorded values, and the
state follows the one-unit absolute tolerance. -/
def reglaAbsolutaUno (row : CompRow) : Prop :=
  row.diferencia
    = some (coerceNum row.valor_factura - coerceNum (row.valor_datalake.getD (.num 0))) ∧
  (row.estado = "OK"
    ↔ |coerceNum row.valor_factura - coerceNum (row.valor_datalake.getD (.num 0))| ≤ 1) ∧
  (row.estado = "Alerta"
    ↔ 1 < |coerceNum row.valor_factura - coerceNum (row.valor_datalake.getD (.num 0))|)

theorem reglaAbsolutaUno_total (r : DbRow) (f : Factura) (cs : PyVal)
    (comp : Componente) (m : MapaComponente) :
    reglaAbsolutaUno (filaComponenteTotal r f cs comp m) := by
  simp only [reglaAbsolutaUno, filaComponenteTotal, componentDiffState, coerceNum,
    Option.getD_some]
  refine ⟨trivial, ?_, ?_⟩ <;> split_ifs with hc <;> simp_all [not_le]

theorem reglaAbsolutaUno_sub (r : DbRow) (f : Factura) (cs : PyVal)
    (comp : Componente) (campo col : String) :
    reglaAbsolutaUno (filaSubcampo r f cs comp campo col) := by
  simp only [reglaAbsolutaUno, filaSubcampo, componentDiffState, coerceNum,
    Option.getD_some]
  refine ⟨trivial, ?_, ?_⟩ <;> split_ifs with hc <;> simp_all [not_le]

/-- Under a successful mapping lookup, the component rows are the total row
followed by the filtered sub-field rows. -/
theorem filasDeComponente_eq (r : DbRow) (f : Factura) (cs : PyVal)
    (comp : Componente) (m : MapaComponente)
    (hm : List.lookup comp.concepto _get_components_mapping = some m) :
    filasDeComponente r f cs comp
      = filaComponenteTotal r f cs comp m ::
          (itemsDe m).filterMap (fun it =>
            if it.1 ≠ "total" then
              it.2.map (filaSubcampo r f cs comp it.1)
            else none) := by
  simp only [filasDeComponente, hm]

/-- Membership in the sub-field rows, unfolded over the five dict items. -/
theorem mem_filas_sub (r : DbRow) (f : Factura) (cs : PyVal)
    (comp : Componente) (m : MapaComponente) (row : CompRow) :
    (row ∈ (itemsDe m).filterMap (fun it =>
        if it.1 ≠ "total" then
          it.2.map (filaSubcampo r f cs comp it.1)
        else none)) ↔
      ((∃ col, m.kwh_kvarh = some col ∧ row = filaSubcampo r f cs comp "kwh_kvarh" col) ∨
       (∃ col, m.precio_kwh = some col ∧ row = filaSubcampo r f cs comp "precio_kwh" col) ∨
       (∃ col, m.mes_corriente = some col ∧ row = filaSubcampo r f cs comp "mes_corriente" col) ∨
       (∃ col, m.mes_anteriores = some col ∧ row = filaSubcampo r f cs comp "mes_anteriores" col)) := by
  rcases hk : m.kwh_kvarh with _ | ck <;>
    rcases hp : m.precio_kwh with _ | cp <;>
      rcases hmc : m.mes_corriente with _ | cmc <;>
        rcases hma : m.mes_anteriores with _ | cma <;>
          simp [itemsDe, hk, hp, hmc, hma, List.filterMap_cons]

/-- Claim C3: for every extracted component with a database match, the
total row records the signed difference `invoice_total − db_total` and is
"Alerta" exactly when its absolute value exceeds 1; every produced row
(total and mapped sub-fields) follows the same one-unit absolute rule; every
mapped sub-field produces its row; and a sub-field whose database-column
mapping is `None` produces no row at all. -/
theorem component_comparison_rule (r : DbRow) (f : Factura) (cs : PyVal)
    (comp : Componente) (m : MapaComponente)
    (hm : List.lookup comp.concepto _get_components_mapping = some m) :
    (∀ row ∈ filasDeComponente r f cs comp, reglaAbsolutaUno row) ∧
    (filasDeComponente r f cs comp).head?
      = some (filaComponenteTotal r f cs comp m) ∧
    (filaComponenteTotal r f cs comp m).diferencia
      = some (coerceNum comp.total - dbValor r m.total) ∧
    (∀ campo col, campo ∈ camposDetalle → campoMapa m campo = some col →
      filaSubcampo r f cs comp campo col ∈ filasDeComponente r f cs comp) ∧
    (∀ campo, campo ∈ camposDetalle → campoMapa m campo = none →
      ∀ row ∈ filasDeComponente r f cs comp,
        row.concepto ≠ comp.concepto ++ "_" ++ campo) := by
  rw [filasDeComponente_eq r f cs comp m hm]
  refine ⟨?_, rfl, rfl, ?_, ?_⟩
  · intro row hrow
    rcases List.mem_cons.mp hrow with h | h
    · subst h; exact reglaAbsolutaUno_total r f cs comp m
    · rcases (mem_filas_sub r f cs comp m row).mp h with
        ⟨col, _, h2⟩ | ⟨col, _, h2⟩ | ⟨col, _, h2⟩ | ⟨col, _, h2⟩ <;>
        (subst h2; exact reglaAbsolutaUno_sub r f cs comp _ col)
  · intro campo col hcampo hcol
    refine List.mem_cons_of_mem _ ((mem_filas_sub r f cs comp m _).mpr ?_)
    simp only [camposDetalle, List.mem_cons, List.not_mem_nil, or_false] at hcampo
    rcases hcampo with h1 | h1 | h1 | h1 <;> subst h1 <;>
      simp only [campoMapa] at hcol
    · exact Or.inl ⟨col, hcol, rfl⟩
    · exact Or.inr (Or.inl ⟨col, hcol, rfl⟩)
    · exact Or.inr (Or.inr (Or.inl ⟨col, hcol, rfl⟩))
    · exact Or.inr (Or.inr (Or.inr ⟨col, hcol, rfl⟩))
  · intro campo hcampo hnone row hrow hconc
    rcases List.mem_cons.mp hrow with h | h
    · subst h
      refine ne_append_no_vacio comp.concepto ("_" ++ campo) ?_ ?_
      · rw [String.length_append]
        have h1 : ("_" : String).length = 1 := by decide
        omega
      · simpa [filaComponenteTotal, String.append_assoc] using hconc
    · rcases (mem_filas_sub r f cs comp m row).mp h with
        ⟨col, hcol, h2⟩ | ⟨col, hcol, h2⟩ | ⟨col, hcol, h2⟩ | ⟨col, hcol, h2⟩ <;>
        (subst h2
         simp only [filaSubcampo] at hconc
         have hcc := append_cancel_izq hconc
         rw [← hcc, campoMapa] at hnone
         rw [hnone] at hcol
         exact Option.noConfusion hcol)

/-! ## Concrete example values used by the claim witnesses -/

/-- A database row with every column absent. -/
def filaDbEj : DbRow := { frt := .str "GEC12345", cols := fun _ => none }

/-- A database row carrying one concrete column. -/
def filaDbEj2 : DbRow :=
  { frt := .str "GEC12345",
    cols := fun c => if c = "sobretasa" then some (.num 4) else none }

/-- A processed invoice with a valid frontier code and integer fields. -/
def facturaEj : Factura :=
  { id := "F1",
    datos_generales :=
      [("codigo_sic", .str "GEC12345"), ("neto_pagar", .num 0),
       ("sobretasa", .num 5), ("total_energia_reactiva", .num 7),
       ("periodo_facturacion", .str "2024-03-01 a 2024-03-31")],
    componentes := [] }

/-- A transmission component with concrete integer values. -/
def componenteEj : Componente :=
  { concepto := "Transmisión", kwh_kvarh := .str "N/A", precio_kwh := .num 10,
    mes_corriente := .num 3, mes_anteriores := .num 0, total := .num 100 }

/-- The mapping entry for `Transmisión` in `_get_components_mapping`. -/
def mapaTransmision : MapaComponente :=
  { total := "transmisión_total_pesos", kwh_kvarh := none,
    precio_kwh := some "transmisión_precio_kwh",
    mes_corriente := some "transmisión_mes_corriente_pesos",
    mes_anteriores := some "transmisión_mes_anteriores_pesos" }

/-- Witness for claim C1 at concrete inputs, covering the three branches. -/
theorem general_field_percentage_rule_witness :
    ((compareGeneralRow filaDbEj facturaEj (.str "GEC12345")
        ("neto_pagar", "neto_a_pagar")).diferencia = some 0 ∧
      (compareGeneralRow filaDbEj facturaEj (.str "GEC12345")
        ("neto_pagar", "neto_a_pagar")).estado = "OK") ∧
    ((compareGeneralRow filaDbEj facturaEj (.str "GEC12345")
        ("sobretasa", "sobretasa")).diferencia = some 100 ∧
      (compareGeneralRow filaDbEj facturaEj (.str "GEC12345")
        ("sobretasa", "sobretasa")).estado = "Alerta") ∧
    (compareGeneralRow filaDbEj2 facturaEj (.str "GEC12345")
        ("sobretasa", "sobretasa")).diferencia = some (|(5 : ℚ) - 4| / |(4 : ℚ)| * 100) :=
  ⟨(general_field_percentage_rule filaDbEj facturaEj (.str "GEC12345")
      "neto_pagar" "neto_a_pagar" 0 0 (by decide) (by decide) (by decide) (by decide)).1
      rfl rfl,
   (general_field_percentage_rule filaDbEj facturaEj (.str "GEC12345")
      "sobretasa" "sobretasa" 5 0 (by decide) (by decide) (by decide) (by decide)).2.1
      rfl (by decide),
   ((general_field_percentage_rule filaDbEj2 facturaEj (.str "GEC12345")
      "sobretasa" "sobretasa" 5 4 (by decide) (by decide) (by decide) (by decide)).2.2
      (by decide)).1⟩

/-- Witness for claim C2 at a concrete input. -/
theorem reactive_field_absolute_rule_witness :
    (compareGeneralRow filaDbEj facturaEj (.str "GEC12345")
        ("total_energia_reactiva", "total_energia_reactiva")).diferencia
      = some |(7 : ℚ) - 0| ∧
    ((compareGeneralRow filaDbEj facturaEj (.str "GEC12345")
        ("total_energia_reactiva", "total_energia_reactiva")).estado = "Alerta"
      ↔ 1/2 < |(7 : ℚ) - 0|) ∧
    ((compareGeneralRow filaDbEj facturaEj (.str "GEC12345")
        ("total_energia_reactiva", "total_energia_reactiva")).estado = "OK"
      ↔ |(7 : ℚ) - 0| ≤ 1/2) :=
  reactive_field_absolute_rule filaDbEj facturaEj (.str "GEC12345")
    "total_energia_reactiva" "total_energia_reactiva" 7 0
    (by decide) (by decide) (by decide) (by decide)

/-- Witness for claim C3 at a concrete component. -/
theorem component_comparison_rule_witness :
    (∀ row ∈ filasDeComponente filaDbEj facturaEj (.str "GEC12345") componenteEj,
      reglaAbsolutaUno row) ∧
    (filasDeComponente filaDbEj facturaEj (.str "GEC12345") componenteEj).head?
      = some (filaComponenteTotal filaDbEj facturaEj (.str "GEC12345") componenteEj
          mapaTransmision) ∧
    (filaComponenteTotal filaDbEj facturaEj (.str "GEC12345") componenteEj
        mapaTransmision).diferencia
      = some (coerceNum componenteEj.total - dbValor filaDbEj mapaTransmision.total) ∧
    (∀ campo col, campo ∈ camposDetalle → campoMapa mapaTransmision campo = some col →
      filaSubcampo filaDbEj facturaEj (.str "GEC12345") componenteEj campo col
        ∈ filasDeComponente filaDbEj facturaEj (.str "GEC12345") componenteEj) ∧
    (∀ campo, campo ∈ camposDetalle → campoMapa mapaTransmision campo = none →
      ∀ row ∈ filasDeComponente filaDbEj facturaEj (.str "GEC12345") componenteEj,
        row.concepto ≠ componenteEj.concepto ++ "_" ++ campo) :=
  component_comparison_rule filaDbEj facturaEj (.str "GEC12345") componenteEj
    mapaTransmision (by decide)

/-! ## `procesamiento.FacturaProcessor._limpiar_valor` (claims C5, C9) -/

/-- `value.startswith('-')`. -/
def esNegativoStr (s : String) : Bool :=
  match s.data with
  | '-' :: _ => true
  | _ => false

/-- `value[1:]` for a string (drop the first character). -/
def sinPrimero (s : String) : String := ⟨s.data.tail⟩

/-- `FacturaProcessor._limpiar_valor`: sentinel → 0; strings have commas and
quotation marks removed, a leading minus set aside, the remainder parsed as
float (if it contains a dot) or int, the sign reapplied; on a parse failure
the remainder string (as mutated so far) is returned; non-strings are
returned unchanged. -/
def _limpiar_valor (value : PyVal) : PyVal :=
  if value = .str "No encontrado" then .num 0
  else
    match value with
    | .str s0 =>
      let s1 := quitarComillas (quitarComas s0)
      let neg := esNegativoStr s1
      let s2 := if neg then sinPrimero s1 else s1
      match (if s2.data.contains '.' then pyFloat? s2
             else (pyInt? s2).map (fun n => (n : ℚ))) with
      | some q => .num (if neg then -q else q)
      | none => .str s2
    | v => v

/-- The cleaned remainder of a string input to `_limpiar_valor`: commas and
quotation marks removed and a leading minus dropped. -/
def restoLimpio (s : String) : String :=
  let s1 := quitarComillas (quitarComas s)
  if esNegativoStr s1 then sinPrimero s1 else s1

/-- The numeric parse `_limpiar_valor` attempts on the cleaned remainder,
with the set-aside sign reapplied. -/
def parseRestoLimpio (s : String) : Option ℚ :=
  let s1 := quitarComillas (quitarComas s)
  let neg := esNegativoStr s1
  let s2 := if neg then sinPrimero s1 else s1
  ((if s2.data.contains '.' then pyFloat? s2
    else (pyInt? s2).map (fun n => (n : ℚ))).map
    (fun q => if neg then -q else q))

/-- Claim C5 (amended): the sentinel "No encontrado" maps to 0; a string
whose cleaned remainder parses is mapped to the signed parsed number; a
string whose cleaned remainder fails numeric parsing is mapped to the
cleaned remainder (commas and quotation marks stripped, leading minus
removed) — not to the original string. -/
theorem clean_value_behaviour :
    _limpiar_valor (.str "No encontrado") = .num 0 ∧
    (∀ s q, s ≠ "No encontrado" → parseRestoLimpio s = some q →
      _limpiar_valor (.str s) = .num q) ∧
    (∀ s, s ≠ "No encontrado" → parseRestoLimpio s = none →
      _limpiar_valor (.str s) = .str (restoLimpio s)) := by
  refine ⟨by decide, ?_, ?_⟩
  · intro s q hs hp
    simp only [parseRestoLimpio, Option.map_eq_some'] at hp
    obtain ⟨q0, hq0, hq⟩ := hp
    simp only [_limpiar_valor, if_neg (show ¬(PyVal.str s = PyVal.str "No encontrado") by
      simpa using hs)]
    rw [hq0]
    exact congrArg PyVal.num hq
  · intro s hs hp
    simp only [parseRestoLimpio, Option.map_eq_none'] at hp
    simp only [_limpiar_valor, if_neg (show ¬(PyVal.str s = PyVal.str "No encontrado") by
      simpa using hs)]
    rw [hp]
    rfl

/-- Counterexample to claim C5 as stated: on parse failure the original
string is not returned unchanged — "-abc" comes back as "abc". -/
theorem clean_value_counterexample :
    _limpiar_valor (.str "-abc") = .str "abc" ∧ ("abc" : String) ≠ "-abc" := by
  constructor <;> decide

/-- Witness for claim C5 at a concrete input. -/
theorem clean_value_behaviour_witness :
    parseRestoLimpio "1,234" = some 1234 ∧
    _limpiar_valor (.str "1,234") = .num 1234 :=
  ⟨by decide, clean_value_behaviour.2.1 "1,234" 1234 (by decide) (by decide)⟩

/-- Claim C9 (amended): already-numeric values are fixed points of the
coercion, hence the coercion is idempotent on every value whose first
application yields a number; (string results of a failed parse may still
change under a second application, see the counterexample). -/
theorem clean_value_idempotent_on_numbers :
    (∀ q : ℚ, _limpiar_valor (.num q) = .num q) ∧
    (∀ v : PyVal, ∀ q : ℚ, _limpiar_valor v = .num q →
      _limpiar_valor (_limpiar_valor v) = _limpiar_valor v) := by
  have hnum : ∀ q : ℚ, _limpiar_valor (.num q) = .num q := by
    intro q
    simp [_limpiar_valor]
  exact ⟨hnum, fun v q h => by rw [h, hnum]⟩

/-- Counterexample to claim C9 as stated: the coercion is not idempotent on
all values — "---5" first cleans to the string "--5", which a second
application turns into the number 5. -/
theorem clean_value_idempotence_counterexample :
    _limpiar_valor (_limpiar_valor (.str "---5")) ≠ _limpiar_valor (.str "---5") := by
  decide

/-- Witness for claim C9 at a concrete input. -/
theorem clean_value_idempotent_on_numbers_witness :
    _limpiar_valor (.str "5") = .num 5 ∧
    _limpiar_valor (_limpiar_valor (.str "5")) = _limpiar_valor (.str "5") :=
  ⟨by decide, clean_value_idempotent_on_numbers.2 (.str "5") 5 (by decide)⟩

/-! ## `extractores_componentes.limpiar_valor` (claim C10) -/

/-- Python `s.endswith(sufijo)` for a concrete suffix. -/
def terminaEn (sufijo : List Char) (s : String) : Bool :=
  sufijo.reverse.isPrefixOf s.data.reverse

/-- Python `s[:-2]`. -/
def sinUltimos2 (s : String) : String := ⟨(s.data.reverse.drop 2).reverse⟩

/-- `extractores_componentes.limpiar_valor(valor, es_decimal=False)`:
`None`/empty input → "0"; otherwise remove quotation marks and surrounding
whitespace; an empty or bare "-" result → "0"; otherwise drop a trailing
".0" when not decimal and remove thousands-separator commas.  The input is
an `Option String` (`none` models `None`; the falsy check covers both). -/
def limpiar_valor (valor : Option String) (es_decimal : Bool) : String :=
  match valor with
  | none => "0"
  | some s =>
    if s = "" then "0"
    else
      let v1 := pyStrip (quitarComillas s)
      if v1 = "" ∨ v1 = "-" then "0"
      else
        let v2 := if ¬es_decimal ∧ terminaEn ['.', '0'] v1 then sinUltimos2 v1 else v1
        quitarComas v2

/-- Claim C10 exactly as stated: "0" for `None`, the empty string, a
whitespace-only string, or (after removing quotation marks only) the bare
"-"; every *other* string is cleaned (quotes and surrounding whitespace
removed, trailing ".0" dropped when not decimal, commas removed). -/
def limpiarValorSegunClaim (valor : Option String) (es_decimal : Bool) : String :=
  match valor with
  | none => "0"
  | some s =>
    if s = "" ∨ (s.data ≠ [] ∧ s.data.all esEspacio) ∨ quitarComillas s = "-" then "0"
    else
      let t := pyStrip (quitarComillas s)
      quitarComas (if ¬es_decimal ∧ terminaEn ['.', '0'] t then sinUltimos2 t else t)

/-- Claim C10 (amended): "0" exactly for `None` and for every string that,
after removing quotation marks and surrounding whitespace, is empty or the
bare "-"; every other string is cleaned as described. -/
def limpiarValorDescrito (valor : Option String) (es_decimal : Bool) : String :=
  match valor with
  | none => "0"
  | some s =>
    let t := pyStrip (quitarComillas s)
    if t = "" ∨ t = "-" then "0"
    else quitarComas (if ¬es_decimal ∧ terminaEn ['.', '0'] t then sinUltimos2 t else t)

/-- Counterexample to claim C10 as stated: the input " - " is neither
`None`, empty, whitespace-only, nor a bare "-" after removing quotation
marks, so the claim's "other string" branch would return "-"; the code
returns "0" (it strips whitespace before the "-" check). -/
theorem component_cleaner_counterexample :
    limpiar_valor (some " - ") false = "0" ∧
    limpiarValorSegunClaim (some " - ") false = "-" ∧
    ("0" : String) ≠ "-" := by
  refine ⟨by decide, by decide, by decide⟩

/-- Claim C10 (amended): the component cleaner is total and agrees
everywhere with the claim's description once the "0" cases are read as
"empty or bare '-' after removing quotation marks and surrounding
whitespace". -/
theorem component_cleaner_total (valor : Option String) (es_decimal : Bool) :
    limpiar_valor valor es_decimal = limpiarValorDescrito valor es_decimal := by
  match valor with
  | none => rfl
  | some s =>
    by_cases hs : s = ""
    · subst hs
      have h0 : pyStrip (quitarComillas "") = "" := by decide
      simp [limpiar_valor, limpiarValorDescrito, h0]
    · simp [limpiar_valor, limpiarValorDescrito, hs]

/-! ## Dates (used by `utils.normalizar_fecha` and the date-range logic) -/

/-- A calendar date (`datetime.date`). -/
structure Fecha where
  anio : ℕ
  mes : ℕ
  dia : ℕ
deriving DecidableEq, Repr

/-- Gregorian leap year, as `calendar`/`datetime` compute it. -/
def esBisiesto (a : ℕ) : Bool :=
  a % 4 = 0 ∧ (a % 100 ≠ 0 ∨ a % 400 = 0)

/-- `calendar.monthrange(a, m)[1]`: the number of days of month `m`. -/
def diasEnMes (a m : ℕ) : ℕ :=
  if m = 2 then (if esBisiesto a then 29 else 28)
  else if m = 4 ∨ m = 6 ∨ m = 9 ∨ m = 11 then 30
  else 31

/-- `datetime(a, m, d)` succeeds: year in `MINYEAR..MAXYEAR`, month and day
in range for the month. -/
def fechaValida (a m d : ℕ) : Bool :=
  1 ≤ a ∧ a ≤ 9999 ∧ 1 ≤ m ∧ m ≤ 12 ∧ 1 ≤ d ∧ d ≤ diasEnMes a m

/-- Zero-padded decimal rendering of width `w`. -/
def rellena (n w : ℕ) : String :=
  let s := toString n
  ⟨List.replicate (w - s.length) '0'⟩ ++ s

/-- `fecha.strftime('%Y-%m-%d')`. -/
def fmtFecha (f : Fecha) : String :=
  rellena f.anio 4 ++ "-" ++ rellena f.mes 2 ++ "-" ++ rellena f.dia 2

/-- `date(a, m, 1)`: first day of the date's month. -/
def primerDiaMes (f : Fecha) : Fecha := ⟨f.anio, f.mes, 1⟩

/-- `date(a, m, monthrange(a, m)[1])`: last day of the date's month. -/
def ultimoDiaMes (f : Fecha) : Fecha := ⟨f.anio, f.mes, diasEnMes f.anio f.mes⟩

/-! ## `utils.normalizar_fecha` (claim C8)

The three date regexes of `normalizar_fecha` are simple enough to embed as
token lists: an exactly-4-digit group, a greedy 1-or-2-digit group (with
regex backtracking: two digits are tried first, then one), and literal
separators.  `searchPat` is `re.search`: leftmost matching position wins. -/

/-- One token of the embedded date patterns. -/
inductive RTok where
  | d4 : RTok
  | d12 : RTok
  | lit : Char → RTok
deriving DecidableEq, Repr

/-- Take exactly `n` leading digits. -/
def tomaDigitos : ℕ → List Char → Option (List Char × List Char)
  | 0, cs => some ([], cs)
  | n + 1, c :: cs =>
    if c.isDigit then (tomaDigitos n cs).map (fun pr => (c :: pr.1, pr.2)) else none
  | _ + 1, [] => none

/-- Match the token list at the start of the character list, returning the
captured digit groups; `d12` is greedy with backtracking. -/
def matchHere : List RTok → List Char → Option (List String)
  | [], _ => some []
  | .lit c :: ts, x :: xs => if x = c then matchHere ts xs else none
  | .lit _ :: _, [] => none
  | .d4 :: ts, cs =>
    match tomaDigitos 4 cs with
    | some (g, rest) =>
      match matchHere ts rest with
      | some gs => some (String.mk g :: gs)
      | none => none
    | none => none
  | .d12 :: ts, cs =>
    match tomaDigitos 2 cs with
    | some (g, rest) =>
      match matchHere ts rest with
      | some gs => some (String.mk g :: gs)
      | none =>
        match tomaDigitos 1 cs with
        | some (g1, rest1) =>
          match matchHere ts rest1 with
          | some gs => some (String.mk g1 :: gs)
          | none => none
        | none => none
    | none =>
      match tomaDigitos 1 cs with
      | some (g1, rest1) =>
        match matchHere ts rest1 with
        | some gs => some (String.mk g1 :: gs)
        | none => none
      | none => none

/-- `re.search`: try the pattern at each position, leftmost first. -/
def searchPat (toks : List RTok) : List Char → Option (List String)
  | [] => matchHere toks []
  | c :: cs =>
    match matchHere toks (c :: cs) with
    | some gs => some gs
    | none => searchPat toks cs

/-- `r'(\d{4})-(\d{1,2})-(\d{1,2})'`. -/
def patronISO : List RTok := [.d4, .lit '-', .d12, .lit '-', .d12]

/-- `r'(\d{1,2})/(\d{1,2})/(\d{4})'`. -/
def patronBarra : List RTok := [.d12, .lit '/', .d12, .lit '/', .d4]

/-- `r'(\d{1,2})-(\d{1,2})-(\d{4})'`. -/
def patronGuion : List RTok := [.d12, .lit '-', .d12, .lit '-', .d4]

/-- The pattern loop of `normalizar_fecha`: for each pattern in order, on a
match check `'/' in fecha_str and len(group(3)) == 4` (normalize as
DD/MM/YYYY when the calendar accepts it), else
`'-' in fecha_str and len(group(1)) == 4` (return the input unchanged);
any other outcome falls through to the next pattern.  `none` means the loop
ended without returning. -/
def nfBucle (pats : List (List RTok)) (fecha_str : String) : Option String :=
  match pats with
  | [] => none
  | p :: resto =>
    match searchPat p fecha_str.data with
    | some [g1, g2, g3] =>
      if fecha_str.data.contains '/' ∧ g3.length = 4 then
        let dia := natDe g1.data
        let mes := natDe g2.data
        let anio := natDe g3.data
        if fechaValida anio mes dia then some (fmtFecha ⟨anio, mes, dia⟩)
        else nfBucle resto fecha_str
      else if fecha_str.data.contains '-' ∧ g1.length = 4 then
        some fecha_str
      else nfBucle resto fecha_str
    | _ => nfBucle resto fecha_str

/-- `utils.normalizar_fecha`: run the three patterns in order; return the
input unchanged if the loop produces nothing. -/
def normalizar_fecha (fecha_str : String) : String :=
  (nfBucle [patronISO, patronBarra, patronGuion] fecha_str).getD fecha_str

/-- On a string with no slash, every pattern branch either returns the
input unchanged or falls through. -/
theorem nfBucle_sin_barra (pats : List (List RTok)) (s : String)
    (hs : s.data.contains '/' = false) :
    nfBucle pats s = none ∨ nfBucle pats s = some s := by
  induction pats with
  | nil => exact Or.inl rfl
  | cons p resto ih =>
    rw [nfBucle]
    split
    · split_ifs with h1 h2 <;>
        first
        | exact absurd h1.1 (by rw [hs]; exact Bool.false_ne_true)
        | exact Or.inr rfl
        | exact ih
    · exact ih

/-- Counterexample to claim C8 as stated: "25-12-2024" is a calendar-valid
DD-MM-YYYY date, yet `normalizar_fecha` returns it unchanged instead of
normalizing it to "2024-12-25" (the dash branch only ever returns the input
unchanged, and only when the *first* group has 4 digits). -/
theorem normalize_date_counterexample :
    normalizar_fecha "25-12-2024" = "25-12-2024" ∧
    normalizar_fecha "25-12-2024" ≠ "2024-12-25" := by
  constructor <;> decide

/-- On a 2-2-4-digit slash string the ISO pattern finds no match. -/
theorem searchISO_barra (a b c d e f g h : Char)
    (ha : a.isDigit = true) (hb : b.isDigit = true) (hc : c.isDigit = true)
    (hd : d.isDigit = true) (he : e.isDigit = true) (hf : f.isDigit = true)
    (hg : g.isDigit = true) (hh : h.isDigit = true) :
    searchPat patronISO [a, b, '/', c, d, '/', e, f, g, h] = none := by
  have hslash : ('/').isDigit = false := by decide
  simp [searchPat, patronISO, matchHere, tomaDigitos,
    ha, hb, hc, hd, he, hf, hg, hh, hslash]

/-- On a 2-2-4-digit slash string the slash pattern matches at position 0
with the three digit groups. -/
theorem searchBarra_barra (a b c d e f g h : Char)
    (ha : a.isDigit = true) (hb : b.isDigit = true) (hc : c.isDigit = true)
    (hd : d.isDigit = true) (he : e.isDigit = true) (hf : f.isDigit = true)
    (hg : g.isDigit = true) (hh : h.isDigit = true) :
    searchPat patronBarra [a, b, '/', c, d, '/', e, f, g, h]
      = some [String.mk [a, b], String.mk [c, d], String.mk [e, f, g, h]] := by
  have hslash : ('/').isDigit = false := by decide
  simp [searchPat, patronBarra, matchHere, tomaDigitos,
    ha, hb, hc, hd, he, hf, hg, hh, hslash]

/-- Every calendar-valid `dd/mm/yyyy` (2-2-4 digit) string is normalized
to the zero-padded ISO form. -/
theorem normaliza_barra_valida (a b c d e f g h : Char)
    (ha : a.isDigit = true) (hb : b.isDigit = true) (hc : c.isDigit = true)
    (hd : d.isDigit = true) (he : e.isDigit = true) (hf : f.isDigit = true)
    (hg : g.isDigit = true) (hh : h.isDigit = true)
    (hval : fechaValida (natDe [e, f, g, h]) (natDe [c, d]) (natDe [a, b]) = true) :
    normalizar_fecha ⟨[a, b, '/', c, d, '/', e, f, g, h]⟩
      = fmtFecha ⟨natDe [e, f, g, h], natDe [c, d], natDe [a, b]⟩ := by
  have h1 := searchISO_barra a b c d e f g h ha hb hc hd he hf hg hh
  have h2 := searchBarra_barra a b c d e f g h ha hb hc hd he hf hg hh
  have hcont : List.contains [a, b, '/', c, d, '/', e, f, g, h] '/' = true := by
    simp [List.contains, List.elem]
    cases ('/' == a) <;> cases ('/' == b) <;> rfl
  simp only [normalizar_fecha, nfBucle, h1, h2, hcont, String.length_mk,
    List.length_cons, List.length_nil]
  norm_num
  rw [if_pos hval]
  simp

/-- Claim C8 (amended): `normalizar_fecha` normalizes every calendar-valid
DD/MM/YYYY (2-2-4 digit slash) date string to zero-padded YYYY-MM-DD; every
string without a slash — including YYYY-MM-DD forms (already ISO) and
DD-MM-YYYY forms (never normalized) — is returned unchanged; a pattern
match that is not calendar-valid only falls through to the next pattern, so
a slash string with an invalid DD/MM/YYYY match may be returned unchanged
when the pattern loop exhausts ("31/02/2024") but may equally be normalized
through a *later* pattern's match, which the `'/' in fecha_str` branch also
accepts ("31/02/2024 25-12-2024" becomes "2024-12-25" via the dash
pattern). -/
theorem normalize_date_amended :
    (∀ s : String, s.data.contains '/' = false → normalizar_fecha s = s) ∧
    (∀ a b c d e f g h : Char,
      a.isDigit = true → b.isDigit = true → c.isDigit = true → d.isDigit = true →
      e.isDigit = true → f.isDigit = true → g.isDigit = true → h.isDigit = true →
      fechaValida (natDe [e, f, g, h]) (natDe [c, d]) (natDe [a, b]) = true →
      normalizar_fecha ⟨[a, b, '/', c, d, '/', e, f, g, h]⟩
        = fmtFecha ⟨natDe [e, f, g, h], natDe [c, d], natDe [a, b]⟩) ∧
    normalizar_fecha "31/02/2024" = "31/02/2024" ∧
    normalizar_fecha "31/02/2024 25-12-2024" = "2024-12-25" := by
  refine ⟨?_, ?_, by decide, by decide⟩
  · intro s hs
    unfold normalizar_fecha
    rcases nfBucle_sin_barra [patronISO, patronBarra, patronGuion] s hs with h | h <;>
      simp [h]
  · intro a b c d e f g h ha hb hc hd he hf hg hh hval
    exact normaliza_barra_valida a b c d e f g h ha hb hc hd he hf hg hh hval

/-- Witness for (the amended) claim C8 at concrete inputs. -/
theorem normalize_date_amended_witness :
    (("25-12-2024" : String).data.contains '/' = false) ∧
    normalizar_fecha "25-12-2024" = "25-12-2024" ∧
    fechaValida (natDe ['2', '0', '2', '4']) (natDe ['1', '2']) (natDe ['2', '5']) = true ∧
    normalizar_fecha ⟨['2', '5', '/', '1', '2', '/', '2', '0', '2', '4']⟩
      = fmtFecha ⟨natDe ['2', '0', '2', '4'], natDe ['1', '2'], natDe ['2', '5']⟩ ∧
    fmtFecha ⟨natDe ['2', '0', '2', '4'], natDe ['1', '2'], natDe ['2', '5']⟩
      = "2024-12-25" :=
  ⟨by decide,
   normalize_date_amended.1 "25-12-2024" (by decide),
   by decide,
   normalize_date_amended.2.1 '2' '5' '1' '2' '2' '0' '2' '4'
     (by decide) (by decide) (by decide) (by decide)
     (by decide) (by decide) (by decide) (by decide) (by decide),
   by decide⟩

/-! ## `extractores.extraer_datos_factura`, financial pass (claim C4)

The regex search of the pattern library over the document text is abstracted
as a capture oracle `captura : String → Option String` giving, per field
name, the first matching pattern's captured group (or `none` when no
alternative matches).  Everything after the capture — the leading-comma
strip, the sentinel default, the skip of `subtotal_energia_contribucion_pesos`
and its computation from the two other fields — is embedded exactly from
lines 545-576 of `extractores.py`. -/

/-- Python `s.split(sep)` for the single-character separator `sep`. -/
def partirEn (c : Char) (cs : List Char) : List (List Char) :=
  cs.foldr (fun x acc =>
    match acc with
    | h :: t => if x = c then [] :: h :: t else (x :: h) :: t
    | [] => [[x]]) [[]]

/-- A non-empty all-digit character run. -/
def esDigitos (cs : List Char) : Bool := cs ≠ [] ∧ cs.all Char.isDigit

/-- `datetime.strptime(s, '%Y-%m-%d').date()`: exactly three dash-separated
fields, a 4-digit year, 1-2 digit month and day, full-string match, then
calendar validation; `none` models the raised `ValueError`. -/
def strptimeYmd (s : String) : Option Fecha :=
  match partirEn '-' s.data with
  | [ys, ms, ds] =>
    if ys.length = 4 ∧ esDigitos ys ∧
        1 ≤ ms.length ∧ ms.length ≤ 2 ∧ esDigitos ms ∧
        1 ≤ ds.length ∧ ds.length ≤ 2 ∧ esDigitos ds then
      if fechaValida (natDe ys) (natDe ms) (natDe ds) then
        some ⟨natDe ys, natDe ms, natDe ds⟩
      else none
    else none
  | _ => none

/-- Python `s.split(' a ')`: scan left to right, splitting at each
non-overlapping occurrence of the three-character separator. -/
def separarSepAux : List Char → List Char → List (List Char)
  | [], acc => [acc.reverse]
  | ' ' :: 'a' :: ' ' :: rest, acc => acc.reverse :: separarSepAux rest []
  | c :: rest, acc => separarSepAux rest (c :: acc)

/-- `periodo.split(' a ')`. -/
def separarA (s : String) : List String :=
  (separarSepAux s.data []).map (fun l => ⟨l⟩)

/-- A totally ordered key for valid dates (lexicographic year, month, day). -/
def claveFecha (f : Fecha) : ℕ := f.anio * 416 + f.mes * 32 + f.dia

/-- Python `min` on dates (first wins ties). -/
def minFecha (a b : Fecha) : Fecha := if claveFecha b < claveFecha a then b else a

/-- Python `max` on dates (first wins ties). -/
def maxFecha (a b : Fecha) : Fecha := if claveFecha a < claveFecha b then b else a

/-- `min(l)` for a non-empty list. -/
def minLista (h : Fecha) (t : List Fecha) : Fecha := t.foldl minFecha h

/-- `max(l)` for a non-empty list. -/
def maxLista (h : Fecha) (t : List Fecha) : Fecha := t.foldl maxFecha h

/-- The current-calendar-month default range. -/
def rangoPorDefecto (hoy : Fecha) : String × String :=
  (fmtFecha (primerDiaMes hoy), fmtFecha (ultimoDiaMes hoy))

/-- `factura['datos_generales'].get('periodo_facturacion')`. -/
def periodoCrudo (f : Factura) : Option PyVal :=
  List.lookup "periodo_facturacion" f.datos_generales

/-- One iteration of the first loop of `extract_date_range_from_facturas`. -/
def pasoRecoge (acc : List (String × String)) (f : Factura) :
    Option (List (String × String)) :=
  match periodoCrudo f with
  | some v =>
    if pyTruthy v ∧ v ≠ .str "No encontrado" then
      match v with
      | .str p =>
        match separarA p with
        | [i, fin] => some (acc ++ [(i, fin)])
        | [_] => some (acc ++ [(p, "")])
        | _ => none
      | _ => none
    else some acc
  | none => some acc

/-- The first loop of `extract_date_range_from_facturas`: collect
`(inicio, fin)` pairs from every truthy, non-sentinel billing period;
`none` models the uncaught exceptions described above. -/
def recogePeriodos (facturas : List Factura) : Option (List (String × String)) :=
  facturas.foldlM pasoRecoge []

/-- One iteration of the second loop of `extract_date_range_from_facturas`:
parse the pair, appending the start date and — when the end is present and
parses — the end date, else the start's month end; a failing end parse
still keeps the already-appended start (the `except` catches after the
first append). -/
def pasoProcesa (acc : List Fecha × List Fecha) (pr : String × String) :
    List Fecha × List Fecha :=
  match strptimeYmd pr.1 with
  | none => acc
  | some d1 =>
    if pr.2 ≠ "" then
      match strptimeYmd pr.2 with
      | some d2 => (acc.1 ++ [d1], acc.2 ++ [d2])
      | none => (acc.1 ++ [d1], acc.2)
    else (acc.1 ++ [d1], acc.2 ++ [ultimoDiaMes d1])

/-- The second loop of `extract_date_range_from_facturas`. -/
def procesaPeriodos (periodos : List (String × String)) : List Fecha × List Fecha :=
  periodos.foldl pasoProcesa ([], [])

/-- `extract_date_range_from_facturas`. -/
def extract_date_range_from_facturas (facturas : List Factura) (hoy : Fecha) :
    Option (String × String) :=
  match recogePeriodos facturas with
  | none => none
  | some periodos =>
    if periodos = [] then some (rangoPorDefecto hoy)
    else
      match procesaPeriodos periodos with
      | (i0 :: irest, f0 :: frest) =>
        some (fmtFecha (primerDiaMes (minLista i0 irest)),
              fmtFecha (ultimoDiaMes (maxLista f0 frest)))
      | _ => some (rangoPorDefecto hoy)

/-- The contribution of one billing-period string as the spec describes it:
a single-date period contributes `(date, last day of its month)`, a
two-date period contributes both dates as given; anything else (unparseable
dates, an empty second part, three or more " a " parts) contributes
nothing. -/
def rangoSpecPar (p : String) : Option (Fecha × Fecha) :=
  match separarA p with
  | [s1, s2] =>
    match strptimeYmd s1, strptimeYmd s2 with
    | some a, some b => some (a, b)
    | _, _ => none
  | [_] => (strptimeYmd p).map (fun d => (d, ultimoDiaMes d))
  | _ => none

/-- The billing period of an invoice when it is a usable string. -/
def periodoUsable (f : Factura) : Option String :=
  match periodoCrudo f with
  | some (.str p) => if p ≠ "" ∧ p ≠ "No encontrado" then some p else none
  | _ => none

/-- The usable billing periods of a batch. -/
def usables (facturas : List Factura) : List String :=
  facturas.filterMap periodoUsable

/-- The well-formedness hypothesis of claim C6: every invoice either has no
usable billing period (absent, empty, sentinel, or a falsy non-string) or a
billing period the spec's description parses. -/
def periodoBienFormado (f : Factura) : Bool :=
  match periodoCrudo f with
  | none => true
  | some (.str p) =>
    if p = "" ∨ p = "No encontrado" then true else (rangoSpecPar p).isSome
  | some (.num q) => q = 0
  | some .pynone => true

/-- The split pair the first loop stores for a usable period. -/
def splitPar (p : String) : String × String :=
  match separarA p with
  | [i, fin] => (i, fin)
  | _ => (p, "")

example : separarA "2024-03-01 a 2024-04-15" = ["2024-03-01", "2024-04-15"] := by decide
example : strptimeYmd "2024-03-01" = some ⟨2024, 3, 1⟩ := by decide
example : strptimeYmd "2024-02-30" = none := by decide
example : extract_date_range_from_facturas [] ⟨2025, 1, 15⟩
    = some ("2025-01-01", "2025-01-31") := by decide

/-- An invoice without a usable period is skipped by the first loop. -/
theorem pasoRecoge_sin_usable (f : Factura) (acc : List (String × String))
    (hu : periodoUsable f = none) (hbf : periodoBienFormado f = true) :
    pasoRecoge acc f = some acc := by
  unfold pasoRecoge
  unfold periodoUsable at hu
  unfold periodoBienFormado at hbf
  rcases hpc : periodoCrudo f with _ | v
  · rfl
  · rw [hpc] at hu hbf
    rcases v with q | p | _
    · simp only [pyTruthy, PyVal.str.injEq, reduceCtorEq]
      rw [if_neg]
      simp only [decide_eq_true_eq] at hbf
      simp [hbf]
    · simp only at hu
      split at hu
      · exact absurd hu (by simp)
      · rename_i hcond
        simp only [pyTruthy, ne_eq, PyVal.str.injEq]
        rw [if_neg]
        intro hcon
        exact hcond ⟨by simpa using hcon.1, by simpa using hcon.2⟩
    · simp [pyTruthy]

/-- An invoice with a usable, well-formed period appends its split pair. -/
theorem pasoRecoge_con_usable (f : Factura) (acc : List (String × String))
    (p : String) (hu : periodoUsable f = some p)
    (hbf : periodoBienFormado f = true) :
    pasoRecoge acc f = some (acc ++ [splitPar p]) := by
  unfold periodoUsable at hu
  unfold periodoBienFormado at hbf
  rcases hpc : periodoCrudo f with _ | v
  · rw [hpc] at hu; exact absurd hu (by simp)
  rcases v with q | p' | _
  · rw [hpc] at hu; exact absurd hu (by simp)
  · rw [hpc] at hu hbf
    simp only [] at hu hbf
    by_cases hcond : p' ≠ "" ∧ p' ≠ "No encontrado"
    · rw [if_pos hcond] at hu
      have hpp : p' = p := by simpa using hu
      subst hpp
      rw [if_neg (not_or.mpr ⟨hcond.1, hcond.2⟩)] at hbf
      unfold pasoRecoge
      rw [hpc]
      simp only []
      split
      · unfold splitPar
        unfold rangoSpecPar at hbf
        generalize hsep : separarA p' = partes at hbf ⊢
        rcases partes with _ | ⟨s1, _ | ⟨s2, _ | _⟩⟩
        · exact absurd hbf (by simp)
        · rfl
        · rfl
        · exact absurd hbf (by simp)
      · rename_i hfalso
        exact absurd ⟨by simpa [pyTruthy] using hcond.1, by simpa using hcond.2⟩ hfalso
    · rw [if_neg hcond] at hu; exact absurd hu (by simp)
  · rw [hpc] at hu; exact absurd hu (by simp)

/-- The first loop accumulates exactly the split pairs of the usable
periods (given well-formedness). -/
theorem recoge_aux (facturas : List Factura) :
    ∀ acc, (∀ f ∈ facturas, periodoBienFormado f = true) →
      facturas.foldlM pasoRecoge acc
        = some (acc ++ (usables facturas).map splitPar) := by
  induction facturas with
  | nil => intro acc _; simp [usables]
  | cons f fs ih =>
    intro acc H
    rw [List.foldlM_cons]
    rcases hu : periodoUsable f with _ | p
    · rw [pasoRecoge_sin_usable f acc hu (H f (List.mem_cons_self f fs))]
      show fs.foldlM pasoRecoge acc = _
      rw [ih acc (fun g hg => H g (List.mem_cons_of_mem f hg))]
      simp [usables, List.filterMap_cons, hu]
    · rw [pasoRecoge_con_usable f acc p hu (H f (List.mem_cons_self f fs))]
      show fs.foldlM pasoRecoge (acc ++ [splitPar p]) = _
      rw [ih (acc ++ [splitPar p]) (fun g hg => H g (List.mem_cons_of_mem f hg))]
      simp [usables, List.filterMap_cons, hu]

/-- What the second loop needs to know about a pair and the spec-side
contribution it produces. -/
def parOk (pr : String × String) (par : Fecha × Fecha) : Prop :=
  strptimeYmd pr.1 = some par.1 ∧
  ((pr.2 = "" ∧ par.2 = ultimoDiaMes par.1) ∨
   (pr.2 ≠ "" ∧ strptimeYmd pr.2 = some par.2))

/-- A period the spec's description parses yields a pair the second loop
processes into exactly the spec-side contribution. -/
theorem parOk_de_rango (p : String) (par : Fecha × Fecha)
    (h : rangoSpecPar p = some par) : parOk (splitPar p) par := by
  unfold rangoSpecPar at h
  unfold splitPar
  generalize hsep : separarA p = partes at h ⊢
  rcases partes with _ | ⟨s1, _ | ⟨s2, _ | _⟩⟩
  · exact absurd h (by simp)
  · obtain ⟨d, hd, hpar⟩ := Option.map_eq_some'.mp h
    exact ⟨by rw [← hpar]; exact hd, Or.inl ⟨rfl, by rw [← hpar]⟩⟩
  · simp only [] at h
    generalize h1 : strptimeYmd s1 = r1 at h
    rcases r1 with _ | a
    · exact absurd h (by simp)
    · generalize h2 : strptimeYmd s2 = r2 at h
      rcases r2 with _ | b
      · exact absurd h (by simp)
      · have hpar : par = (a, b) := by simpa using h.symm
        subst hpar
        refine ⟨h1, Or.inr ⟨?_, h2⟩⟩
        intro hvacio
        have hv : s2 = "" := hvacio
        have hnone : strptimeYmd "" = none := by decide
        rw [hv, hnone] at h2
        exact Option.noConfusion h2
  · exact absurd h (by simp)

/-- The second loop turns related pairs into the two spec-side lists. -/
theorem procesa_aux (periodos : List (String × String))
    (pares : List (Fecha × Fecha)) (hf : List.Forall₂ parOk periodos pares) :
    ∀ acc, periodos.foldl pasoProcesa acc
      = (acc.1 ++ pares.map Prod.fst, acc.2 ++ pares.map Prod.snd) := by
  induction hf with
  | nil => intro acc; simp
  | @cons pr par prs pars hpar _ ih =>
    intro acc
    rw [List.foldl_cons]
    have hstep : pasoProcesa acc pr = (acc.1 ++ [par.1], acc.2 ++ [par.2]) := by
      unfold pasoProcesa
      rw [hpar.1]
      simp only []
      rcases hpar.2 with ⟨h2, h3⟩ | ⟨h2, h3⟩
      · rw [if_neg (by simp [h2])]
        rw [h3]
      · rw [if_pos h2, h3]
    rw [hstep, ih]
    simp

/-- The usable periods all parse under the well-formedness hypothesis. -/
theorem usables_bien (facturas : List Factura)
    (H : ∀ f ∈ facturas, periodoBienFormado f = true) :
    ∀ p ∈ usables facturas, (rangoSpecPar p).isSome := by
  intro p hp
  obtain ⟨f, hf, hu⟩ := List.mem_filterMap.mp hp
  have hbf := H f hf
  unfold periodoUsable at hu
  unfold periodoBienFormado at hbf
  rcases hpc : periodoCrudo f with _ | v <;> rw [hpc] at hu hbf
  · exact absurd hu (by simp)
  · rcases v with q | p' | _
    · exact absurd hu (by simp)
    · simp only at hu
      split at hu
      · rename_i hcond
        have hpp : p' = p := by simpa using hu
        subst hpp
        simp only [] at hbf
        rwa [if_neg (not_or.mpr ⟨hcond.1, hcond.2⟩)] at hbf
      · exact absurd hu (by simp)
    · exact absurd hu (by simp)

/-- Well-formed usable periods relate pointwise to their spec-side pairs. -/
theorem forall2_usables (ps : List String)
    (h : ∀ p ∈ ps, (rangoSpecPar p).isSome) :
    List.Forall₂ parOk (ps.map splitPar) (ps.filterMap rangoSpecPar) := by
  induction ps with
  | nil => simp
  | cons p t ih =>
    obtain ⟨par, hpar⟩ := Option.isSome_iff_exists.mp (h p (List.mem_cons_self p t))
    simp only [List.map_cons, List.filterMap_cons, hpar]
    exact List.Forall₂.cons (parOk_de_rango p par hpar)
      (ih fun q hq => h q (List.mem_cons_of_mem _ hq))

/-- Claim C6: with no caller-supplied dates, the derived comparison range
is: each parseable billing period contributes its start and end (a single
date contributing its month's last day as end); the returned range runs
from the first day of the earliest start's month through the last day of
the latest end's month; with no usable billing period, the range is the
current calendar month. -/
theorem date_range_derivation (facturas : List Factura) (hoy : Fecha)
    (H : ∀ f ∈ facturas, periodoBienFormado f = true) :
    (usables facturas = [] →
      extract_date_range_from_facturas facturas hoy = some (rangoPorDefecto hoy)) ∧
    (∀ par pares, (usables facturas).filterMap rangoSpecPar = par :: pares →
      extract_date_range_from_facturas facturas hoy
        = some (fmtFecha (primerDiaMes (minLista par.1 (pares.map Prod.fst))),
                fmtFecha (ultimoDiaMes (maxLista par.2 (pares.map Prod.snd))))) := by
  have hrec : recogePeriodos facturas = some ((usables facturas).map splitPar) := by
    unfold recogePeriodos
    rw [recoge_aux facturas [] H]
    simp
  constructor
  · intro hvacio
    unfold extract_date_range_from_facturas
    rw [hrec, hvacio]
    simp
  · intro par pares hpares
    have husable : usables facturas ≠ [] := by
      intro he
      rw [he] at hpares
      exact List.noConfusion hpares
    have hforall := forall2_usables (usables facturas) (usables_bien facturas H)
    rw [hpares] at hforall
    have hproc := procesa_aux _ _ hforall ([], [])
    unfold extract_date_range_from_facturas
    rw [hrec]
    simp only []
    rw [if_neg (fun h => husable (List.map_eq_nil_iff.mp h))]
    rw [show procesaPeriodos ((usables facturas).map splitPar)
        = (par.1 :: pares.map Prod.fst, par.2 :: pares.map Prod.snd) from by
      unfold procesaPeriodos
      rw [hproc]
      simp]

/-- An invoice with a two-date billing period. -/
def facturaPeriodo1 : Factura :=
  { id := "F2",
    datos_generales :=
      [("codigo_sic", .str "GEC1"),
       ("periodo_facturacion", .str "2024-03-01 a 2024-04-15")],
    componentes := [] }

/-- An invoice with a single-date billing period. -/
def facturaPeriodo2 : Factura :=
  { id := "F3",
    datos_generales := [("periodo_facturacion", .str "2024-05-10")],
    componentes := [] }

/-- Witness for claim C6 at a concrete batch: a two-date period
2024-03-01 a 2024-04-15 and a single-date period 2024-05-10 derive the
whole-month range 2024-03-01 .. 2024-05-31. -/
theorem date_range_derivation_witness :
    ((usables [facturaPeriodo1, facturaPeriodo2]).filterMap rangoSpecPar
      = ((⟨2024, 3, 1⟩, ⟨2024, 4, 15⟩) : Fecha × Fecha)
          :: [((⟨2024, 5, 10⟩, ⟨2024, 5, 31⟩) : Fecha × Fecha)]) ∧
    extract_date_range_from_facturas [facturaPeriodo1, facturaPeriodo2] ⟨2025, 1, 15⟩
      = some (fmtFecha (primerDiaMes (minLista ⟨2024, 3, 1⟩
            ([((⟨2024, 5, 10⟩, ⟨2024, 5, 31⟩) : Fecha × Fecha)].map Prod.fst))),
          fmtFecha (ultimoDiaMes (maxLista ⟨2024, 4, 15⟩
            ([((⟨2024, 5, 10⟩, ⟨2024, 5, 31⟩) : Fecha × Fecha)].map Prod.snd)))) ∧
    extract_date_range_from_facturas [facturaPeriodo1, facturaPeriodo2] ⟨2025, 1, 15⟩
      = some ("2024-03-01", "2024-05-31") :=
  ⟨by decide,
   (date_range_derivation [facturaPeriodo1, facturaPeriodo2] ⟨2025, 1, 15⟩ (by decide)).2
     (⟨2024, 3, 1⟩, ⟨2024, 4, 15⟩)
     [((⟨2024, 5, 10⟩, ⟨2024, 5, 31⟩) : Fecha × Fecha)] (by decide),
   by decide⟩

/-! ## `db_connector_comparacion.compare_with_facturas` (claim C7) -/

/-- The frontier codes collected from the processed invoices (lines 29-40):
only truthy, non-sentinel `codigo_sic` values are kept.  This is the list
passed to `get_factura_data_from_db`. -/
def fronterasDe (facturas : List Factura) : List PyVal :=
  facturas.filterMap (fun f =>
    let cs := dgGet f "codigo_sic" (.str "")
    if pyTruthy cs ∧ cs ≠ .str "No encontrado" then some cs else none)

/-- The general-field list of `_create_empty_comparison_dataframe`. -/
def campos_a_comparar : List String :=
  ["periodo_facturacion", "factor_m", "codigo_sic", "subtotal_base_energia",
   "contribucion", "contribucion_otros_meses",
   "subtotal_energia_contribucion_pesos", "otros_cobros", "sobretasa",
   "ajustes_cargos_regulados", "compensaciones", "saldo_cartera",
   "interes_mora", "recobros", "alumbrado_publico",
   "impuesto_alumbrado_publico", "ajuste_iap_otros_meses",
   "convivencia_ciudadana", "tasa_especial_convivencia",
   "ajuste_tasa_convivencia", "total_servicio_energia_impuestos",
   "ajuste_decena", "neto_pagar", "energia_reactiva_inductiva",
   "energia_reactiva_capacitiva", "total_energia_reactiva"]

/-- A comparison row with no database value (`Estado` "No encontrado en DB"). -/
def filaVacia (f : Factura) (codigo_sic : PyVal) (concepto : String)
    (valor : PyVal) : CompRow :=
  { id_factura := f.id, frontera := codigo_sic, concepto := concepto,
    valor_factura := valor, valor_datalake := none, diferencia := none,
    estado := "No encontrado en DB" }

/-- The component rows both empty-comparison builders append: the total
row, then the four detailed fields (with `"N/A"` mapped to 0). -/
def filasVaciasComponente (f : Factura) (codigo_sic : PyVal)
    (comp : Componente) : List CompRow :=
  filaVacia f codigo_sic comp.concepto comp.total ::
    camposDetalle.map (fun campo =>
      let v := campoDe comp campo
      filaVacia f codigo_sic (comp.concepto ++ "_" ++ campo)
        (if v = .str "N/A" then .num 0 else v))

/-- The rows `_create_empty_comparison_dataframe` appends for one invoice
(skipping sentinel / empty frontier codes). -/
def filasVaciasDeFactura (f : Factura) : List CompRow :=
  let cs := dgGet f "codigo_sic" (.str "")
  if cs = .str "No encontrado" ∨ pyTruthy cs = false then []
  else
    campos_a_comparar.map (fun campo =>
      filaVacia f cs campo (dgGet f (pyLower campo) (.num 0)))
    ++ (f.componentes.map (filasVaciasComponente f cs)).flatten

/-- `_create_empty_comparison_dataframe`: the database-failure comparison. -/
def _create_empty_comparison_dataframe (facturas : List Factura) : List CompRow :=
  (facturas.map filasVaciasDeFactura).flatten

/-- `_add_empty_comparison_rows`: the rows for a matched-loop invoice whose
frontier is absent from the database result. -/
def _add_empty_comparison_rows (f : Factura) (codigo_sic : PyVal) : List CompRow :=
  _get_variables_mapping.map (fun pr =>
    filaVacia f codigo_sic pr.1 (dgGet f pr.1 (.num 0)))
  ++ (f.componentes.map (filasVaciasComponente f codigo_sic)).flatten

/-- The rows the main loop of `compare_with_facturas` appends for one
invoice: skip sentinel / empty frontier codes; filter the database rows by
`frt` (using the first match); fall back to the empty rows when none match. -/
def filasDeFactura (db_data : List DbRow) (f : Factura) : List CompRow :=
  let cs := dgGet f "codigo_sic" (.str "")
  if cs = .str "No encontrado" ∨ pyTruthy cs = false then []
  else
    match db_data.filter (fun r => r.frt == cs) with
    | [] => _add_empty_comparison_rows f cs
    | r :: _ => _compare_general_variables r f cs ++ _compare_energy_components r f cs

/-- Python truthiness of an optional date string argument. -/
def optTruthy (s : Option String) : Bool :=
  match s with
  | some t => t ≠ ""
  | none => false

/-- `compare_with_facturas`.  The database call is the `dbQuery` parameter
(`none` models a `None`/failed result); `hoy` is `date.today()`; the outer
`none` propagates an uncaught exception from the date-range derivation. -/
def compare_with_facturas
    (dbQuery : String → String → List PyVal → Option (List DbRow))
    (facturas : List Factura) (fecha_inicio fecha_fin : Option String)
    (hoy : Fecha) : Option (List CompRow) :=
  let fronteras := fronterasDe facturas
  if fronteras = [] then some []
  else
    match (if ¬optTruthy fecha_inicio ∨ ¬optTruthy fecha_fin then
             extract_date_range_from_facturas facturas hoy
           else some (fecha_inicio.getD "", fecha_fin.getD "")) with
    | none => none
    | some fechas =>
      match dbQuery fechas.1 fechas.2 fronteras with
      | none => some (_create_empty_comparison_dataframe facturas)
      | some db_data =>
        if db_data.isEmpty then some (_create_empty_comparison_dataframe facturas)
        else some ((facturas.map (filasDeFactura db_data)).flatten)

/-- All general-variable rows carry the invoice's frontier code. -/
theorem frontera_generales (r : DbRow) (f : Factura) (cs : PyVal) :
    ∀ row ∈ _compare_general_variables r f cs, row.frontera = cs := by
  intro row hrow
  obtain ⟨pr, _, hpr⟩ := List.mem_map.mp hrow
  rw [← hpr]
  rfl

/-- All component rows carry the invoice's frontier code. -/
theorem frontera_componentes (r : DbRow) (f : Factura) (cs : PyVal) :
    ∀ row ∈ _compare_energy_components r f cs, row.frontera = cs := by
  intro row hrow
  obtain ⟨l, hl, hrl⟩ := List.mem_flatten.mp hrow
  obtain ⟨comp, _, hcl⟩ := List.mem_map.mp hl
  rw [← hcl] at hrl
  unfold filasDeComponente at hrl
  rcases hlk : List.lookup comp.concepto _get_components_mapping with _ | m <;>
    rw [hlk] at hrl
  · exact absurd hrl (List.not_mem_nil row)
  · rcases List.mem_cons.mp hrl with h | h
    · rw [h]; rfl
    · obtain ⟨it, _, hit⟩ := List.mem_filterMap.mp h
      by_cases hto : it.1 ≠ "total"
      · rw [if_pos hto] at hit
        obtain ⟨col, _, hcol⟩ := Option.map_eq_some'.mp hit
        rw [← hcol]
        rfl
      · rw [if_neg hto] at hit
        exact Option.noConfusion hit

/-- All empty component rows carry the invoice's frontier code. -/
theorem frontera_vacias_componente (f : Factura) (cs : PyVal) (comp : Componente) :
    ∀ row ∈ filasVaciasComponente f cs comp, row.frontera = cs := by
  intro row hrow
  rcases List.mem_cons.mp hrow with h | h
  · rw [h]; rfl
  · obtain ⟨campo, _, hc⟩ := List.mem_map.mp h
    rw [← hc]
    rfl

/-- All frontier-missing rows carry the invoice's frontier code. -/
theorem frontera_add_empty (f : Factura) (cs : PyVal) :
    ∀ row ∈ _add_empty_comparison_rows f cs, row.frontera = cs := by
  intro row hrow
  rcases List.mem_append.mp hrow with h | h
  · obtain ⟨pr, _, hpr⟩ := List.mem_map.mp h
    rw [← hpr]
    rfl
  · obtain ⟨l, hl, hrl⟩ := List.mem_flatten.mp h
    obtain ⟨comp, _, hcl⟩ := List.mem_map.mp hl
    rw [← hcl] at hrl
    exact frontera_vacias_componente f cs comp row hrl

/-- Every row the main loop produces for an invoice has a truthy,
non-sentinel frontier. -/
theorem filas_de_factura_buenas (db : List DbRow) (f : Factura) :
    ∀ row ∈ filasDeFactura db f,
      pyTruthy row.frontera = true ∧ row.frontera ≠ .str "No encontrado" := by
  intro row hrow
  unfold filasDeFactura at hrow
  simp only [] at hrow
  split at hrow
  · exact absurd hrow (List.not_mem_nil row)
  · rename_i hbueno
    push_neg at hbueno
    have hcs : pyTruthy (dgGet f "codigo_sic" (.str "")) = true ∧
        dgGet f "codigo_sic" (.str "") ≠ .str "No encontrado" :=
      ⟨by simpa using hbueno.2, hbueno.1⟩
    split at hrow
    · rw [frontera_add_empty f _ row hrow]
      exact hcs
    · rcases List.mem_append.mp hrow with h | h
      · rw [frontera_generales _ f _ row h]
        exact hcs
      · rw [frontera_componentes _ f _ row h]
        exact hcs

/-- Every row the database-failure path produces has a truthy,
non-sentinel frontier. -/
theorem filas_vacias_buenas (f : Factura) :
    ∀ row ∈ filasVaciasDeFactura f,
      pyTruthy row.frontera = true ∧ row.frontera ≠ .str "No encontrado" := by
  intro row hrow
  unfold filasVaciasDeFactura at hrow
  simp only [] at hrow
  split at hrow
  · exact absurd hrow (List.not_mem_nil row)
  · rename_i hbueno
    push_neg at hbueno
    have hcs : pyTruthy (dgGet f "codigo_sic" (.str "")) = true ∧
        dgGet f "codigo_sic" (.str "") ≠ .str "No encontrado" :=
      ⟨by simpa using hbueno.2, hbueno.1⟩
    rcases List.mem_append.mp hrow with h | h
    · obtain ⟨campo, _, hc⟩ := List.mem_map.mp h
      rw [← hc]
      exact hcs
    · obtain ⟨l, hl, hrl⟩ := List.mem_flatten.mp h
      obtain ⟨comp, _, hcl⟩ := List.mem_map.mp hl
      rw [← hcl] at hrl
      rw [frontera_vacias_componente f _ comp row hrl]
      exact hcs

/-- Claim C7: an invoice whose `codigo_sic` is the sentinel or empty is
excluded from the frontier list sent to the database query, contributes no
row in the matched, frontier-missing, or database-failure paths, and — in
every result `compare_with_facturas` can return — every comparison row
carries a truthy, non-sentinel frontier. -/
theorem missing_frontier_excluded :
    (∀ facturas : List Factura, ∀ v ∈ fronterasDe facturas,
      pyTruthy v = true ∧ v ≠ .str "No encontrado") ∧
    (∀ (db : List DbRow) (f : Factura),
      dgGet f "codigo_sic" (.str "") = .str "No encontrado" ∨
        pyTruthy (dgGet f "codigo_sic" (.str "")) = false →
      filasDeFactura db f = [] ∧ filasVaciasDeFactura f = []) ∧
    (∀ (dbQuery : String → String → List PyVal → Option (List DbRow))
        (facturas : List Factura) (fecha_inicio fecha_fin : Option String)
        (hoy : Fecha) (rows : List CompRow),
      compare_with_facturas dbQuery facturas fecha_inicio fecha_fin hoy = some rows →
      ∀ row ∈ rows,
        pyTruthy row.frontera = true ∧ row.frontera ≠ .str "No encontrado") := by
  refine ⟨?_, ?_, ?_⟩
  · intro facturas v hv
    obtain ⟨f, _, hf⟩ := List.mem_filterMap.mp hv
    simp only [] at hf
    by_cases hcond : pyTruthy (dgGet f "codigo_sic" (.str "")) = true ∧
        dgGet f "codigo_sic" (.str "") ≠ .str "No encontrado"
    · rw [if_pos hcond] at hf
      rw [← Option.some_inj.mp hf]
      exact hcond
    · rw [if_neg hcond] at hf
      exact Option.noConfusion hf
  · intro db f hbad
    constructor
    · unfold filasDeFactura
      simp only []
      rw [if_pos hbad]
    · unfold filasVaciasDeFactura
      simp only []
      rw [if_pos hbad]
  · intro dbQuery facturas fecha_inicio fecha_fin hoy rows hcomp row hrow
    unfold compare_with_facturas at hcomp
    simp only [] at hcomp
    split at hcomp
    · rw [← Option.some_inj.mp hcomp] at hrow
      exact absurd hrow (List.not_mem_nil row)
    · split at hcomp
      · exact Option.noConfusion hcomp
      · split at hcomp
        · rw [← Option.some_inj.mp hcomp] at hrow
          obtain ⟨l, hl, hrl⟩ := List.mem_flatten.mp hrow
          obtain ⟨f, _, hfl⟩ := List.mem_map.mp hl
          rw [← hfl] at hrl
          exact filas_vacias_buenas f row hrl
        · split at hcomp
          · rw [← Option.some_inj.mp hcomp] at hrow
            obtain ⟨l, hl, hrl⟩ := List.mem_flatten.mp hrow
            obtain ⟨f, _, hfl⟩ := List.mem_map.mp hl
            rw [← hfl] at hrl
            exact filas_vacias_buenas f row hrl
          · rw [← Option.some_inj.mp hcomp] at hrow
            obtain ⟨l, hl, hrl⟩ := List.mem_flatten.mp hrow
            obtain ⟨f, _, hfl⟩ := List.mem_map.mp hl
            rw [← hfl] at hrl
            exact filas_de_factura_buenas _ f row hrl

/-- An invoice whose frontier code is the sentinel. -/
def facturaSinCodigo : Factura :=
  { id := "F4",
    datos_generales := [("codigo_sic", .str "No encontrado")],
    componentes := [componenteEj] }

/-- Witness for claim C7 at concrete inputs: a sentinel-frontier invoice
produces no rows, and a full run on a valid invoice (with a failing
database query) produces only rows with good frontiers. -/
theorem missing_frontier_excluded_witness :
    (dgGet facturaSinCodigo "codigo_sic" (.str "") = .str "No encontrado" ∨
      pyTruthy (dgGet facturaSinCodigo "codigo_sic" (.str "")) = false) ∧
    (filasDeFactura [] facturaSinCodigo = [] ∧
      filasVaciasDeFactura facturaSinCodigo = []) ∧
    compare_with_facturas (fun _ _ _ => none) [facturaEj]
        (some "2024-01-01") (some "2024-01-31") ⟨2025, 1, 15⟩
      = some (_create_empty_comparison_dataframe [facturaEj]) ∧
    (∀ row ∈ _create_empty_comparison_dataframe [facturaEj],
      pyTruthy row.frontera = true ∧ row.frontera ≠ .str "No encontrado") := by
  have hc : compare_with_facturas (fun _ _ _ => none) [facturaEj]
      (some "2024-01-01") (some "2024-01-31") ⟨2025, 1, 15⟩
    = some (_create_empty_comparison_dataframe [facturaEj]) := by decide
  exact ⟨by decide,
    missing_frontier_excluded.2.1 [] facturaSinCodigo (by decide),
    hc,
    missing_frontier_excluded.2.2 _ [facturaEj] _ _ _ _ hc⟩
